import Mathlib

/-!
Shallow embedding of the spaced-repetition / mastery / quiz-scoring / content-statistics
core of the TurboLearn AI server (Mongoose models `Flashcard`, `Content`, `Quiz` and the
routes that call them).  MongoDB collections are modelled as Lean lists of documents,
queries as pure list functions, timestamps as integers (milliseconds since the epoch),
and Mongo ObjectIds as natural numbers.  The numeric arithmetic of the source
(JavaScript doubles) is modelled exactly over `ℚ`; all values involved in the claims
(small integer point weights, review counts) are exactly representable as doubles,
so the exact model coincides with the source on them.
-/

namespace TurboLearn

/-- Flashcard difficulty, `enum: ['easy', 'medium', 'hard']` in the schema. -/
inductive Difficulty where
  | easy
  | medium
  | hard
deriving DecidableEq, Repr

/-- Content type, `enum: ['document', 'video', 'article', 'note']` in the schema. -/
inductive ContentType where
  | document
  | video
  | article
  | note
deriving DecidableEq, Repr

/-- A flashcard document (model `Flashcard`).  `oid` is the Mongo `_id`;
`lastReviewed` is nullable (`default: null`); `reviewCount` defaults to 0. -/
structure Flashcard where
  oid : Nat
  contentId : Nat
  question : String
  answer : String
  difficulty : Difficulty
  tags : List String
  lastReviewed : Option Int
  reviewCount : Nat
deriving DecidableEq, Repr

/-- A content document (model `Content`).  Only the fields the statistics
aggregation touches are carried; `content` is the raw extracted text. -/
structure Content where
  oid : Nat
  userId : Nat
  title : String
  ctype : ContentType
  content : String
deriving DecidableEq, Repr

/-- The difficulty multiplier used by the `masteryLevel` virtual:
easy 1, medium 1.5, hard 2. -/
def difficultyMultiplier : Difficulty → ℚ
  | .easy => 1
  | .medium => 3 / 2
  | .hard => 2

/-- The raw mastery score of the `masteryLevel` virtual:
`reviewCount * 10 * difficultyMultiplier[difficulty]`. -/
def masteryScore (f : Flashcard) : ℚ :=
  (f.reviewCount : ℚ) * 10 * difficultyMultiplier f.difficulty

/-- The `masteryLevel` virtual of the flashcard schema: band the score at
100 / 50 / 20 into mastered / proficient / learning / new. -/
def masteryLevel (f : Flashcard) : String :=
  let score := masteryScore f
  if score ≥ 100 then "mastered"
  else if score ≥ 50 then "proficient"
  else if score ≥ 20 then "learning"
  else "new"

/-- Milliseconds in 24 hours, the live due threshold of `getForReview`. -/
def oneDayMs : Int := 24 * 60 * 60 * 1000

/-- The Mongo comparison order of the sort key `{ lastReviewed: 1, reviewCount: 1 }`:
ascending `lastReviewed` with nulls first, ties broken by ascending `reviewCount`. -/
def reviewOrder (a b : Flashcard) : Prop :=
  match a.lastReviewed, b.lastReviewed with
  | none, none => a.reviewCount ≤ b.reviewCount
  | none, some _ => True
  | some _, none => False
  | some s, some t => s < t ∨ (s = t ∧ a.reviewCount ≤ b.reviewCount)

instance : DecidableRel reviewOrder := by
  intro a b
  unfold reviewOrder
  cases a.lastReviewed <;> cases b.lastReviewed <;> infer_instance

instance : IsTotal Flashcard reviewOrder := by
  constructor
  intro a b
  unfold reviewOrder
  cases a.lastReviewed <;> cases b.lastReviewed <;> simp <;> omega

instance : IsTrans Flashcard reviewOrder := by
  constructor
  intro a b c hab hbc
  unfold reviewOrder at *
  cases ha : a.lastReviewed <;> cases hb : b.lastReviewed <;> cases hc : c.lastReviewed <;>
    simp_all <;> omega

/-- The filter of `Flashcard.getForReview`: belongs to the content item and is due,
i.e. `lastReviewed` is null or strictly older than 24 hours before `now`. -/
def dueFilter (contentId : Nat) (now : Int) (f : Flashcard) : Bool :=
  f.contentId == contentId &&
    (match f.lastReviewed with
      | none => true
      | some t => t < now - oneDayMs)

/-- `Flashcard.getForReview(contentId, limit = 20)` over a collection `db`:
computes the 1-day threshold (the 3-day and 7-day thresholds are also computed in
the source but never used by the query), filters to the due flashcards of the
content item, sorts by `{ lastReviewed: 1, reviewCount: 1 }` and truncates to
`limit`. -/
def getForReview (contentId : Nat) (now : Int) (db : List Flashcard)
    (limit : Nat := 20) : List Flashcard :=
  let _threeDaysAgo := now - 3 * oneDayMs
  let _weekAgo := now - 7 * oneDayMs
  (((db.filter (dueFilter contentId now)).insertionSort reviewOrder).take limit)

/-- `Flashcard.markReviewed()`: sets `lastReviewed` to now and increments
`reviewCount` by one. -/
def markReviewed (now : Int) (f : Flashcard) : Flashcard :=
  { f with lastReviewed := some now, reviewCount := f.reviewCount + 1 }

/-- The review endpoint `POST /api/ai/flashcards/:id/review` at the data layer:
`findById` then `markReviewed` and save; `none` models the 404 not-found failure.
Mongo guarantees `_id` uniqueness, so saving the found document updates exactly
the documents carrying that id. -/
def markFlashcardReviewed (id : Nat) (now : Int) (db : List Flashcard) :
    Option (List Flashcard) :=
  match db.find? (fun f => f.oid == id) with
  | none => none
  | some _ => some (db.map (fun f => if f.oid = id then markReviewed now f else f))

/-- Splitting a character list at every whitespace character, keeping empty
chunks, as `split(/\s+/)` does up to empty chunks (which both variants then
filter away, so the token counts agree). -/
def splitWs : List Char → List (List Char)
  | [] => [[]]
  | c :: cs =>
      if c.isWhitespace then [] :: splitWs cs
      else
        match splitWs cs with
        | [] => [[c]]
        | w :: ws => (c :: w) :: ws

/-- The `wordCount` virtual of the content schema:
`content.split(/\s+/).filter(word => word.length > 0).length`, the number of
maximal non-whitespace tokens of the text. -/
def wordCount (s : String) : Nat :=
  ((splitWs s.data).filter (fun w => w.length > 0)).length

/-- The result row of the `Content.getStats` aggregation pipeline. -/
structure ContentStats where
  totalContent : Nat
  totalWords : Nat
  documentCount : Nat
  videoCount : Nat
  articleCount : Nat
  noteCount : Nat
deriving DecidableEq, Repr

/-- `Content.getStats(userId)`: `$match` on the user, `$group` summing 1 into
`totalContent` and `$strLenCP` of the text — the length of the text in code
points, modelled by `String.length` — into `totalWords`, then `$project`
counting each type tag.  A `$group` stage over an empty match emits no group,
so the pipeline result is the empty list for a user with no content. -/
def contentGetStats (userId : Nat) (db : List Content) : List ContentStats :=
  let matched := db.filter (fun c => c.userId == userId)
  if matched.isEmpty then []
  else
    [{ totalContent := matched.length
       totalWords := (matched.map (fun c => c.content.length)).sum
       documentCount := (matched.filter (fun c => c.ctype == .document)).length
       videoCount := (matched.filter (fun c => c.ctype == .video)).length
       articleCount := (matched.filter (fun c => c.ctype == .article)).length
       noteCount := (matched.filter (fun c => c.ctype == .note)).length }]

/-- The stats endpoint `GET /api/content/stats`: responds with
`stats[0] || {}`.  `some row` models the one aggregation row; `none` models the
empty object `{}` the route substitutes when the pipeline returned nothing. -/
def contentRouteStats (userId : Nat) (db : List Content) : Option ContentStats :=
  (contentGetStats userId db).head?

/-- A quiz question subdocument; `qid` is its embedded `_id`, `points` its
weight (`min 1, default 1` in the schema). -/
structure Question where
  qid : Nat
  question : String
  options : List String
  points : Nat
deriving DecidableEq, Repr

/-- A submitted answer record (`IQuizAnswer`). -/
structure Answer where
  questionId : Nat
  answer : String
  isCorrect : Bool
deriving DecidableEq, Repr

/-- A stored quiz attempt (`IQuizAttempt`). -/
structure Attempt where
  userId : Nat
  score : ℤ
  answers : List Answer
  completedAt : Int
  timeSpent : Nat
deriving DecidableEq, Repr

/-- A quiz document (model `Quiz`). -/
structure Quiz where
  oid : Nat
  contentId : Nat
  title : String
  passingScore : Nat
  questions : List Question
  attempts : List Attempt
deriving DecidableEq, Repr

/-- `Math.round` on a non-negative value: round half away from zero, which for
non-negative arguments is `⌊x + 1/2⌋`. -/
def jsRound (x : ℚ) : ℤ := ⌊x + 1 / 2⌋

/-- The total points accumulated by `calculateScore` (also the `totalPoints`
virtual): the sum of the question weights. -/
def totalPoints (qz : Quiz) : Nat :=
  (qz.questions.map (fun q => q.points)).sum

/-- The earned points accumulated by `calculateScore`: for each question,
`answers.find(a => a.questionId === question._id)` — the FIRST submitted answer
with that question id — contributes the question's weight when flagged correct. -/
def earnedPoints (qz : Quiz) (answers : List Answer) : Nat :=
  (qz.questions.map (fun q =>
    match answers.find? (fun a => a.questionId == q.qid) with
    | some a => if a.isCorrect then q.points else 0
    | none => 0)).sum

/-- `Quiz.calculateScore(answers)`:
`totalPoints > 0 ? Math.round((earnedPoints / totalPoints) * 100) : 0`. -/
def calculateScore (qz : Quiz) (answers : List Answer) : ℤ :=
  if totalPoints qz > 0 then
    jsRound (((earnedPoints qz answers : ℚ) / (totalPoints qz : ℚ)) * 100)
  else 0

/-- `Quiz.addAttempt(userId, answers, timeSpent)`: score the submission with
`calculateScore` and push one new attempt record onto the attempts list. -/
def addAttempt (now : Int) (userId : Nat) (answers : List Answer)
    (timeSpent : Nat) (qz : Quiz) : Quiz :=
  { qz with attempts := qz.attempts ++
      [{ userId := userId
         score := calculateScore qz answers
         answers := answers
         completedAt := now
         timeSpent := timeSpent }] }

/-! ### Specification-side definitions -/

/-- The spec's mastery classification, written from the spec's words:
`score = reviewCount × 10 × difficultyMultiplier` with multiplier 1 for easy,
1.5 for medium, 2 for hard; bands at `score ≥ 100` mastered, `≥ 50` proficient,
`≥ 20` learning, else new. -/
def specMasteryBand (f : Flashcard) : String :=
  let m : ℚ := match f.difficulty with
    | .easy => 1
    | .medium => 1.5
    | .hard => 2
  let score : ℚ := (f.reviewCount : ℚ) * 10 * m
  if score ≥ 100 then "mastered"
  else if score ≥ 50 then "proficient"
  else if score ≥ 20 then "learning"
  else "new"

/-- The spec's due rule: a flashcard is due when `lastReviewed` is null or
strictly older than 24 hours before now. -/
def specDue (now : Int) (f : Flashcard) : Prop :=
  f.lastReviewed = none ∨ ∃ t, f.lastReviewed = some t ∧ t < now - 24 * 60 * 60 * 1000

instance (now : Int) (f : Flashcard) : Decidable (specDue now f) := by
  unfold specDue
  cases f.lastReviewed <;> simp <;> infer_instance

/-- The order of the four mastery bands, new < learning < proficient < mastered. -/
def bandRank (s : String) : Nat :=
  if s = "mastered" then 3
  else if s = "proficient" then 2
  else if s = "learning" then 1
  else 0

/-! ### Sample documents used by concrete witnesses and counterexamples -/

/-- A never-reviewed flashcard of content 1 with review count 0. -/
def cardA : Flashcard := ⟨1, 1, "qa", "aa", .easy, [], none, 0⟩

/-- A never-reviewed flashcard of content 1 with review count 1. -/
def cardB : Flashcard := ⟨2, 1, "qb", "ab", .easy, [], none, 1⟩

/-- A never-reviewed flashcard of content 1 with review count 2. -/
def cardC : Flashcard := ⟨3, 1, "qc", "ac", .easy, [], none, 2⟩

/-- A quiz over content 1 with two questions worth 1 and 3 points. -/
def quiz13 : Quiz := ⟨1, 1, "pts", 70, [⟨1, "one", [], 1⟩, ⟨2, "three", [], 3⟩], []⟩

/-- A quiz with no questions, hence zero total points. -/
def quizZero : Quiz := ⟨2, 1, "empty", 70, [], []⟩

/-- A content item of user 1 whose text is `"hello world"`:
11 code points, 2 whitespace-separated words. -/
def contentHello : Content := ⟨1, 1, "hw", .document, "hello world"⟩

/-! ### Claims about the mastery classification -/

/-- **C8.** The `masteryLevel` virtual agrees with the spec's banding of
`reviewCount × 10 × difficultyMultiplier` (multiplier 1 / 1.5 / 2, bands at
100 / 50 / 20), and in particular review count 5 at difficulty hard is
"mastered" while review count 5 at difficulty easy is "proficient". -/
theorem masteryLevel_matches_spec_banding (f : Flashcard) :
    masteryLevel f = specMasteryBand f
    ∧ masteryLevel { f with difficulty := .hard, reviewCount := 5 } = "mastered"
    ∧ masteryLevel { f with difficulty := .easy, reviewCount := 5 } = "proficient" := by
  refine ⟨?_, ?_, ?_⟩
  · cases hd : f.difficulty <;>
      norm_num [masteryLevel, specMasteryBand, masteryScore, difficultyMultiplier, hd]
  · norm_num [masteryLevel, masteryScore, difficultyMultiplier]
  · norm_num [masteryLevel, masteryScore, difficultyMultiplier]

/-- **C9.** For a fixed difficulty the mastery band is monotone in the review
count: more reviews never yield a lower band in the order
new < learning < proficient < mastered. -/
theorem masteryLevel_monotone_in_reviewCount (f g : Flashcard)
    (hd : f.difficulty = g.difficulty) (hrc : f.reviewCount ≤ g.reviewCount) :
    bandRank (masteryLevel f) ≤ bandRank (masteryLevel g) := by
  have hmul : 0 ≤ difficultyMultiplier g.difficulty := by
    cases g.difficulty <;> norm_num [difficultyMultiplier]
  have hcast : (f.reviewCount : ℚ) ≤ (g.reviewCount : ℚ) := by exact_mod_cast hrc
  have hs : masteryScore f ≤ masteryScore g := by
    unfold masteryScore
    rw [hd]
    exact mul_le_mul_of_nonneg_right (by linarith) hmul
  simp only [masteryLevel]
  split_ifs <;> simp [bandRank] <;> linarith

/-- Witness for C9 at concrete flashcards: review count 0 versus 2 at
difficulty easy. -/
theorem masteryLevel_monotone_in_reviewCount_witness :
    bandRank (masteryLevel cardA) ≤ bandRank (masteryLevel cardC) :=
  masteryLevel_monotone_in_reviewCount cardA cardC rfl (by norm_num [cardA, cardC])

/-! ### Claims about the due-flashcard query -/

/-- The filter of `getForReview` accepts exactly the flashcards of the content
item that satisfy the spec's due rule. -/
theorem dueFilter_iff (cid : Nat) (now : Int) (f : Flashcard) :
    dueFilter cid now f = true ↔ (f.contentId = cid ∧ specDue now f) := by
  unfold dueFilter specDue oneDayMs
  cases h : f.lastReviewed <;> simp [h]

/-- **C3 counterexample.** Three never-reviewed flashcards of content 1 with a
limit of 2: the query truncates to the limit, so the third null-`lastReviewed`
flashcard is absent from the output even though the limit is positive. -/
theorem nullCard_dropped_when_limit_small :
    cardC.lastReviewed = none ∧ cardC ∈ [cardC, cardB, cardA]
    ∧ cardC.contentId = 1 ∧ 0 < 2
    ∧ cardC ∉ getForReview 1 (10 * oneDayMs) [cardC, cardB, cardA] 2 := by
  decide

/-- **C3 (amended).** Every flashcard with null `lastReviewed` passes the due
filter, and it appears in the output of `getForReview` whenever the limit is at
least the number of due flashcards of its content item; a limit smaller than
that truncates the sorted result. -/
theorem nullCard_in_review_when_limit_suffices
    (cid : Nat) (now : Int) (limit : Nat) (db : List Flashcard) (f : Flashcard)
    (hf : f ∈ db) (hcid : f.contentId = cid) (hnull : f.lastReviewed = none)
    (hlim : (db.filter (dueFilter cid now)).length ≤ limit) :
    f ∈ getForReview cid now db limit := by
  have hmem : f ∈ db.filter (dueFilter cid now) :=
    List.mem_filter.2 ⟨hf, by simp [dueFilter, hcid, hnull]⟩
  have hsortmem : f ∈ (db.filter (dueFilter cid now)).insertionSort reviewOrder :=
    (List.mem_insertionSort reviewOrder).2 hmem
  have hlen : ((db.filter (dueFilter cid now)).insertionSort reviewOrder).length ≤ limit := by
    rw [List.length_insertionSort]; exact hlim
  unfold getForReview
  rw [List.take_of_length_le hlen]
  exact hsortmem

/-- Witness for the amended C3: a single never-reviewed flashcard is returned
under the default limit of 20. -/
theorem nullCard_in_review_when_limit_suffices_witness :
    cardA ∈ getForReview 1 0 [cardA] 20 :=
  nullCard_in_review_when_limit_suffices 1 0 20 [cardA] cardA
    (by decide) (by decide) (by decide) (by decide)

/-- **C4.** `getForReview` returns exactly the flashcards of the content item
satisfying the spec's due rule (null `lastReviewed`, or strictly older than 24
hours before now), sorted by `lastReviewed` ascending with nulls first then by
review count ascending, truncated to the limit; the unused 3-day and 7-day
thresholds of the source play no role (the right-hand query below never
mentions them).  The default limit 20 lives in the signature of
`getForReview`. -/
theorem getForReview_characterization (cid : Nat) (now : Int) (limit : Nat)
    (db : List Flashcard) :
    getForReview cid now db limit
      = ((db.filter (fun f => decide (f.contentId = cid ∧ specDue now f))).insertionSort
          reviewOrder).take limit
    ∧ (getForReview cid now db limit).length ≤ limit
    ∧ List.Sorted reviewOrder (getForReview cid now db limit)
    ∧ (∀ f ∈ getForReview cid now db limit, f.contentId = cid ∧ specDue now f) := by
  have hfil : db.filter (dueFilter cid now)
      = db.filter (fun f => decide (f.contentId = cid ∧ specDue now f)) := by
    apply List.filter_congr
    intro f _
    have h := dueFilter_iff cid now f
    revert h
    cases dueFilter cid now f <;> cases hd : decide (f.contentId = cid ∧ specDue now f) <;>
      simp_all
  refine ⟨by unfold getForReview; rw [hfil], ?_, ?_, ?_⟩
  · unfold getForReview
    exact List.length_take_le limit _
  · unfold getForReview
    exact (List.sorted_insertionSort reviewOrder _).sublist (List.take_sublist limit _)
  · intro f hf
    unfold getForReview at hf
    have hf' := (List.mem_insertionSort reviewOrder).1 (List.take_subset limit _ hf)
    exact (dueFilter_iff cid now f).1 (List.of_mem_filter hf')

/-- Witness for C4: its membership consequence applied to a concrete
never-reviewed flashcard returned by the query. -/
theorem getForReview_characterization_witness :
    cardA.contentId = 1 ∧ specDue 0 cardA :=
  (getForReview_characterization 1 0 20 [cardA]).2.2.2 cardA (by decide)

/-! ### Claims about quiz scoring -/

/-- Earned points never exceed total points: each question contributes at most
its own weight. -/
theorem earnedPoints_le_totalPoints (qz : Quiz) (answers : List Answer) :
    earnedPoints qz answers ≤ totalPoints qz := by
  unfold earnedPoints totalPoints
  apply List.sum_le_sum
  intro q hq
  cases hf : answers.find? (fun b => b.questionId == q.qid) with
  | none => simp
  | some a => by_cases hc : a.isCorrect = true <;> simp [hc]

/-- **C5.** `calculateScore` awards a question's weight when the first
submitted answer matching its identifier is flagged correct, scores
`round(earned/total*100)`, defines the score as 0 on a zero-point quiz
(no exception), yields 100 when every question's matching answer is correct
and the total is non-zero, and yields 75 on the quiz with questions worth
1 and 3 points when only the 3-point question is answered correctly. -/
theorem calculateScore_spec (qz : Quiz) (answers : List Answer) :
    (totalPoints qz = 0 → calculateScore qz answers = 0)
    ∧ (0 < totalPoints qz →
        (∀ q ∈ qz.questions, ∃ a ∈ answers,
          answers.find? (fun b => b.questionId == q.qid) = some a ∧ a.isCorrect = true) →
        calculateScore qz answers = 100)
    ∧ calculateScore quiz13 [⟨2, "ans", true⟩] = 75 := by
  refine ⟨?_, ?_, ?_⟩
  · intro h
    simp [calculateScore, h]
  · intro ht hall
    have he : earnedPoints qz answers = totalPoints qz := by
      unfold earnedPoints totalPoints
      congr 1
      apply List.map_congr_left
      intro q hq
      obtain ⟨a, _, hfind, hcorr⟩ := hall q hq
      rw [hfind]
      simp [hcorr]
    have htq : ((totalPoints qz : ℚ)) ≠ 0 := by
      exact_mod_cast ht.ne'
    simp only [calculateScore, if_pos ht, he]
    rw [div_self htq]
    norm_num [jsRound]
  · norm_num [calculateScore, jsRound, earnedPoints, totalPoints, quiz13]

/-- Witness for C5: the zero-point quiz scores 0, and the 1-plus-3-point quiz
with both questions answered correctly scores 100. -/
theorem calculateScore_spec_witness :
    calculateScore quizZero [] = 0
    ∧ calculateScore quiz13 [⟨1, "a", true⟩, ⟨2, "b", true⟩] = 100 := by
  constructor
  · exact (calculateScore_spec quizZero []).1 (by decide)
  · exact (calculateScore_spec quiz13 [⟨1, "a", true⟩, ⟨2, "b", true⟩]).2.1
      (by decide) (by decide)

/-- **C10.** The computed score always lies between 0 and 100, and only the
first submitted answer matching a question's identifier is consulted: appending
further answers whose question ids already occur among the submitted answers
never changes the score, so a weight is awarded at most once per question. -/
theorem calculateScore_bounded_first_match (qz : Quiz) (answers extra : List Answer) :
    0 ≤ calculateScore qz answers
    ∧ calculateScore qz answers ≤ 100
    ∧ ((∀ a ∈ extra, ∃ b ∈ answers, b.questionId = a.questionId) →
        calculateScore qz (answers ++ extra) = calculateScore qz answers) := by
  have hle := earnedPoints_le_totalPoints qz answers
  refine ⟨?_, ?_, ?_⟩
  · unfold calculateScore
    split_ifs with ht
    · apply Int.le_floor.mpr
      have htq : (0:ℚ) < (totalPoints qz : ℚ) := by exact_mod_cast ht
      positivity
    · exact le_refl 0
  · unfold calculateScore
    split_ifs with ht
    · have htq : (0:ℚ) < (totalPoints qz : ℚ) := by exact_mod_cast ht
      have heq : (earnedPoints qz answers : ℚ) ≤ (totalPoints qz : ℚ) := by
        exact_mod_cast hle
      have hdiv : (earnedPoints qz answers : ℚ) / (totalPoints qz : ℚ) ≤ 1 :=
        (div_le_one htq).mpr heq
      have hx : (earnedPoints qz answers : ℚ) / (totalPoints qz : ℚ) * 100 ≤ 100 := by
        nlinarith
      calc jsRound ((earnedPoints qz answers : ℚ) / (totalPoints qz : ℚ) * 100)
          ≤ ⌊(201:ℚ)/2⌋ := Int.floor_le_floor (by linarith)
        _ = 100 := by norm_num
    · norm_num
  · intro hex
    have hfind : ∀ q ∈ qz.questions,
        (answers ++ extra).find? (fun b => b.questionId == q.qid)
          = answers.find? (fun b => b.questionId == q.qid) := by
      intro q hq
      rw [List.find?_append]
      cases hf : answers.find? (fun b => b.questionId == q.qid) with
      | some a => simp
      | none =>
        have hnone : extra.find? (fun b => b.questionId == q.qid) = none := by
          apply List.find?_eq_none.mpr
          intro a ha hpa
          obtain ⟨b, hb, hbq⟩ := hex a ha
          have hnb := List.find?_eq_none.mp hf b hb
          apply hnb
          simp only [beq_iff_eq] at hpa ⊢
          rw [hbq, hpa]
        simp [hnone]
    have he : earnedPoints qz (answers ++ extra) = earnedPoints qz answers := by
      unfold earnedPoints
      congr 1
      apply List.map_congr_left
      intro q hq
      rw [hfind q hq]
    simp only [calculateScore, he]

/-- Witness for C10: duplicating an already-submitted answer with the opposite
flag does not change the score of the 1-plus-3-point quiz. -/
theorem calculateScore_bounded_first_match_witness :
    calculateScore quiz13 ([⟨2, "ans", true⟩] ++ [⟨2, "dup", false⟩])
      = calculateScore quiz13 [⟨2, "ans", true⟩] :=
  (calculateScore_bounded_first_match quiz13 [⟨2, "ans", true⟩] [⟨2, "dup", false⟩]).2.2
    (by decide)

/-! ### Claims about marking a flashcard reviewed -/

/-- **C6.** Marking a flashcard reviewed fails exactly when no record carries
the id; on success the collection keeps its length, every record with a
different id is untouched, and the record with the id gets its `reviewCount`
incremented by exactly 1 and its `lastReviewed` set to the call time `now`
(hence not earlier than the call time), with every other attribute
unchanged. -/
theorem markFlashcardReviewed_spec (id : Nat) (now : Int) (db : List Flashcard) :
    (markFlashcardReviewed id now db = none ↔ db.find? (fun f => f.oid == id) = none)
    ∧ ∀ db', markFlashcardReviewed id now db = some db' →
        db'.length = db.length
        ∧ ∀ i (hi : i < db.length) (hi' : i < db'.length),
            ((db.get ⟨i, hi⟩).oid ≠ id → db'.get ⟨i, hi'⟩ = db.get ⟨i, hi⟩)
            ∧ ((db.get ⟨i, hi⟩).oid = id →
                (db'.get ⟨i, hi'⟩).reviewCount = (db.get ⟨i, hi⟩).reviewCount + 1
                ∧ (db'.get ⟨i, hi'⟩).lastReviewed = some now
                ∧ (db'.get ⟨i, hi'⟩).oid = (db.get ⟨i, hi⟩).oid
                ∧ (db'.get ⟨i, hi'⟩).contentId = (db.get ⟨i, hi⟩).contentId
                ∧ (db'.get ⟨i, hi'⟩).question = (db.get ⟨i, hi⟩).question
                ∧ (db'.get ⟨i, hi'⟩).answer = (db.get ⟨i, hi⟩).answer
                ∧ (db'.get ⟨i, hi'⟩).difficulty = (db.get ⟨i, hi⟩).difficulty
                ∧ (db'.get ⟨i, hi'⟩).tags = (db.get ⟨i, hi⟩).tags) := by
  constructor
  · unfold markFlashcardReviewed
    cases h : db.find? (fun f => f.oid == id) <;> simp
  · intro db' hdb'
    unfold markFlashcardReviewed at hdb'
    cases h : db.find? (fun f => f.oid == id) <;> rw [h] at hdb'
    · exact absurd hdb' (by simp)
    · injection hdb' with hdb'
      subst hdb'
      refine ⟨by simp, ?_⟩
      intro i hi hi'
      have hget : (db.map (fun f => if f.oid = id then markReviewed now f else f)).get ⟨i, hi'⟩
          = (fun f => if f.oid = id then markReviewed now f else f) (db.get ⟨i, hi⟩) := by
        simp
      constructor
      · intro hne
        rw [hget]
        simp only [List.get_eq_getElem] at hne ⊢
        simp [hne]
      · intro heq
        rw [hget]
        simp only [List.get_eq_getElem] at heq ⊢
        simp [heq, markReviewed]

/-- Witness for C6: marking an absent id fails, and marking the present id
updates the single record in place. -/
theorem markFlashcardReviewed_spec_witness :
    markFlashcardReviewed 99 5 [cardA] = none
    ∧ [markReviewed 5 cardA].length = [cardA].length := by
  constructor
  · exact (markFlashcardReviewed_spec 99 5 [cardA]).1.mpr (by decide)
  · exact ((markFlashcardReviewed_spec 1 5 [cardA]).2 [markReviewed 5 cardA] (by decide)).1

/-! ### Claims about quiz attempts -/

/-- **C7.** `addAttempt` is append-only: each call appends exactly one attempt
(the attempt count grows by exactly 1 per call), every previously stored
attempt — score included — survives unchanged as a prefix, even when the
quiz's questions are replaced between the calls, and the stored score of the
first attempt is the score computed from the questions at submission time. -/
theorem addAttempt_append_only (qz : Quiz) (t1 t2 : Int) (u1 u2 : Nat)
    (ans1 ans2 : List Answer) (ts1 ts2 : Nat) (qs2 : List Question) :
    (addAttempt t1 u1 ans1 ts1 qz).attempts.length = qz.attempts.length + 1
    ∧ (addAttempt t2 u2 ans2 ts2
        { addAttempt t1 u1 ans1 ts1 qz with questions := qs2 }).attempts.length
        = (addAttempt t1 u1 ans1 ts1 qz).attempts.length + 1
    ∧ (addAttempt t1 u1 ans1 ts1 qz).attempts.take qz.attempts.length = qz.attempts
    ∧ (addAttempt t2 u2 ans2 ts2
        { addAttempt t1 u1 ans1 ts1 qz with questions := qs2 }).attempts.take
          (addAttempt t1 u1 ans1 ts1 qz).attempts.length
        = (addAttempt t1 u1 ans1 ts1 qz).attempts
    ∧ ((addAttempt t1 u1 ans1 ts1 qz).attempts.get
          ⟨qz.attempts.length, by simp [addAttempt]⟩).score = calculateScore qz ans1 := by
  refine ⟨by simp [addAttempt], by simp [addAttempt], ?_, ?_, by simp [addAttempt]⟩
  · exact List.take_left qz.attempts _
  · have h := List.take_left (addAttempt t1 u1 ans1 ts1 qz).attempts
      ([{ userId := u2
          score := calculateScore { addAttempt t1 u1 ans1 ts1 qz with questions := qs2 } ans2
          answers := ans2
          completedAt := t2
          timeSpent := ts2 }] : List Attempt)
    simpa [addAttempt] using h

/-! ### Claims about the content statistics aggregation -/

/-- A content item owned by user 2, used to exercise the zero-content case of
user 1 on a non-empty collection. -/
def contentOther : Content := ⟨2, 2, "other", .note, "x"⟩

/-- **C1 (code bug).** For the user owning the single content item with text
`"hello world"`, the aggregation reports `totalWords = 11`, the `$strLenCP`
code-point length of the text, while the whitespace-token word count — the
`wordCount` virtual, and what the spec says `totalWords` holds — is 2. -/
theorem totalWords_is_code_point_count_not_word_count :
    contentRouteStats 1 [contentHello] = some ⟨1, 11, 1, 0, 0, 0⟩
    ∧ contentHello.content.length = 11
    ∧ wordCount contentHello.content = 2
    ∧ contentHello.content.length ≠ wordCount contentHello.content := by
  decide

/-- **C2 counterexample.** For a user with zero content items the aggregation
pipeline emits no row, so the stats route responds with `stats[0] || {}` — the
empty object, modelled as `none` — and not with a structure whose six counters
are present and zero. -/
theorem contentRouteStats_zero_content_empty_object :
    contentRouteStats 1 [] = none
    ∧ contentRouteStats 1 [] ≠ some ⟨0, 0, 0, 0, 0, 0⟩ := by
  decide

/-- **C2 (amended).** For every user owning zero content items the aggregation
returns no row and the stats route returns the empty object: it does not fail
and does not return null, but the counters are omitted rather than present
as zeros. -/
theorem contentStats_zero_content_no_row (u : Nat) (db : List Content)
    (h : ∀ c ∈ db, c.userId ≠ u) :
    contentGetStats u db = [] ∧ contentRouteStats u db = none := by
  have hfil : db.filter (fun c => c.userId == u) = [] := by
    apply List.filter_eq_nil_iff.mpr
    intro c hc
    simp [h c hc]
  have h1 : contentGetStats u db = [] := by
    simp only [contentGetStats]
    rw [hfil]
    rfl
  exact ⟨h1, by unfold contentRouteStats; rw [h1]; rfl⟩

/-- Witness for the amended C2: user 1 owns nothing in a collection holding
only user 2's content. -/
theorem contentStats_zero_content_no_row_witness :
    contentGetStats 1 [contentOther] = [] ∧ contentRouteStats 1 [contentOther] = none :=
  contentStats_zero_content_no_row 1 [contentOther] (by decide)

end TurboLearn
